import Mathlib

/-!
Formal model of `src/cpu_load.py` (CPU load generator).

Numeric quantities that the Python program computes with floating-point
arithmetic (`cycle_time`, `busy_time`, `sleep_time`, the percentage) are
modelled with exact rationals `ℚ`; Python `int` values are modelled with
`ℤ`/`ℕ`.  Stateful parts (the shared stop event, the shutdown join loop)
are modelled as explicit transition functions on small state types.
-/

set_option maxHeartbeats 1000000

namespace CpuLoad

/-! ### Duty-cycle worker (`cpu_load_worker`, src lines 51-70) -/

/-- `cycle_time = 0.1` — the fixed 100 ms cycle window (src line 57). -/
def cycle_time : ℚ := 1 / 10

/-- `busy_time = cycle_time * (target_percent / 100.0)` (src line 59). -/
def busy_time (target_percent : ℚ) : ℚ :=
  cycle_time * (target_percent / 100)

/-- `sleep_time = cycle_time - busy_time` (src line 60). -/
def sleep_time (target_percent : ℚ) : ℚ :=
  cycle_time - busy_time target_percent

/-- The guard of the sleep phase: `if sleep_time > 0: time.sleep(sleep_time)`
(src lines 69-70).  `true` exactly when the worker executes a sleep call. -/
def sleep_executed (target_percent : ℚ) : Bool :=
  decide (0 < sleep_time target_percent)

/-- The busy-spin phase (src lines 64-66): `end_busy = perf_counter() + busy_time`
is taken at clock reading `0`; then `while perf_counter() < end_busy:
do_intensive_work()` takes one further clock reading per loop test.  `clock`
maps the reading index to the time it returns, `fuel` bounds the number of
loop tests modelled, `k` is the index of the next reading, and the result
counts how many times `do_intensive_work` is invoked. -/
def busyIterations (clock : ℕ → ℚ) (deadline : ℚ) : ℕ → ℕ → ℕ
  | 0, _ => 0
  | fuel + 1, k => if clock k < deadline then busyIterations clock deadline fuel (k + 1) + 1 else 0

/-- Per-cycle busy/sleep split as the code computes it: once, before the
`while not stop_event.is_set()` loop, then reused for every cycle
(src lines 59-70).  Returns the `(busy, sleep)` pair used in each of the
first `numCycles` cycles. -/
def worker_cycle_splits_code (target_percent : ℚ) (numCycles : ℕ) : List (ℚ × ℚ) :=
  List.replicate numCycles (busy_time target_percent, sleep_time target_percent)

/-- Modelled from the spec (§4.2 step 1): the busy/idle split is recomputed
at the start of every cycle as `busy_time = cycle_window * (target_percent / 100)`;
`idle_time = cycle_window - busy_time`. -/
def worker_cycle_splits_spec (target_percent : ℚ) (numCycles : ℕ) : List (ℚ × ℚ) :=
  (List.range numCycles).map fun _ =>
    (cycle_time * (target_percent / 100), cycle_time - cycle_time * (target_percent / 100))

/-! ### Coordinator argument handling (`main`, src lines 95-111) -/

/-- `num_cores = args.cores if args.cores else multiprocessing.cpu_count()`
(src line 103).  Python truthiness: `None` (here `Option.none`) and `0` are
falsy and fall back to `cpu_count`; every nonzero value — negative included —
is truthy and is kept as-is. -/
def resolve_num_cores (cores : Option ℤ) (cpu_count : ℤ) : ℤ :=
  match cores with
  | none => cpu_count
  | some c => if c = 0 then cpu_count else c

/-- `for i in range(num_cores): ... p.start()` (src lines 127-133): Python
`range` over a non-positive bound is empty, so the number of worker processes
started is `max 0 num_cores`. -/
def launched_workers (cores : Option ℤ) (cpu_count : ℤ) : ℕ :=
  (resolve_num_cores cores cpu_count).toNat

/-- Outcome of `main` up to the point where workers are running:
either the configuration-error path of src lines 98-100, or the running
state with the number of started worker processes. -/
inductive MainOutcome where
  | configError (exitStatus : ℕ) (stderrMsg : String) (workersLaunched : ℕ)
  | running (workersLaunched : ℕ)
deriving DecidableEq

/-- `if not 0 <= args.percentage <= 100: print(..., file=sys.stderr); sys.exit(1)`
(src lines 98-100), followed — only on the valid path — by the worker launch
loop (src lines 127-133). -/
def validate_and_launch (percentage : ℚ) (cores : Option ℤ) (cpu_count : ℤ) : MainOutcome :=
  if 0 ≤ percentage ∧ percentage ≤ 100 then
    MainOutcome.running (launched_workers cores cpu_count)
  else
    MainOutcome.configError 1 "Error: Percentage must be between 0 and 100" 0

/-- The startup summary's duration line (src lines 108-111). -/
inductive SummaryLine where
  | untilInterrupt
  | forSeconds (d : ℚ)
deriving DecidableEq

/-- `if args.duration: print(f"  Duration: {args.duration} seconds") else
print(f"  Duration: Until Ctrl+C")` (src lines 108-111).  Python truthiness:
`None` and `0.0` are falsy. -/
def duration_summary (duration : Option ℚ) : SummaryLine :=
  match duration with
  | none => SummaryLine.untilInterrupt
  | some d => if d = 0 then SummaryLine.untilInterrupt else SummaryLine.forSeconds d

/-- The coordinator's wait phase (src lines 138-145). -/
inductive WaitBranch where
  | timed (d : ℚ)
  | indefinitePolling
deriving DecidableEq

/-- `if args.duration: time.sleep(args.duration); stop_event.set() else:
while not stop_event.is_set(): time.sleep(0.5)` (src lines 139-145).
Same truthiness test as the summary line. -/
def wait_branch (duration : Option ℚ) : WaitBranch :=
  match duration with
  | none => WaitBranch.indefinitePolling
  | some d => if d = 0 then WaitBranch.indefinitePolling else WaitBranch.timed d

/-! ### Shared stop event (`multiprocessing.Event`, src lines 115-123, 141, 150, 62) -/

/-- Every operation any component of the program performs on the shared
`stop_event`. The handler installed for SIGINT/SIGTERM (src lines 118-123),
the duration-expiry path (src line 141) and the shutdown path (src line 150)
all call `stop_event.set()`; the workers only call `stop_event.is_set()`
(src line 62).  No call site clears the event. -/
inductive StopOp where
  | handlerSet
  | durationExpirySet
  | shutdownSet
  | workerCheck
deriving DecidableEq

/-- Effect of one stop-event operation on the flag. -/
def applyStopOp : StopOp → Bool → Bool
  | StopOp.handlerSet, _ => true
  | StopOp.durationExpirySet, _ => true
  | StopOp.shutdownSet, _ => true
  | StopOp.workerCheck, b => b

/-- Flag value after an arbitrary interleaving of stop-event operations. -/
def runStopOps (ops : List StopOp) (b : Bool) : Bool :=
  ops.foldl (fun s op => applyStopOp op s) b

/-! ### Shutdown join loop (`main`, src lines 149-156) -/

/-- The `timeout=2` of `p.join(timeout=2)` (src line 152). -/
def grace_period : ℚ := 2

/-- Observable events of the shutdown phase. -/
inductive ShutdownEvent where
  | joined (i : ℕ)
  | terminated (i : ℕ)
  | printedStopped
deriving DecidableEq

/-- `p.join(timeout=2); if p.is_alive(): p.terminate()` for one worker
(src lines 152-154).  `exitTime` is the time after the stop request at which
the worker exits voluntarily (`none` if it never would): if it exits within
the grace period the join succeeds, otherwise the worker is still alive after
the join times out and is forcibly terminated. -/
def handle_worker (exitTime : Option ℚ) (i : ℕ) : ShutdownEvent :=
  match exitTime with
  | some t => if t ≤ grace_period then ShutdownEvent.joined i else ShutdownEvent.terminated i
  | none => ShutdownEvent.terminated i

/-- `for p in processes: ...` (src lines 151-154), workers indexed from `i`. -/
def worker_outcomes : ℕ → List (Option ℚ) → List ShutdownEvent
  | _, [] => []
  | i, w :: ws => handle_worker w i :: worker_outcomes (i + 1) ws

/-- Full shutdown trace: the per-worker join/terminate loop followed by
`print("CPU load generator stopped.")` (src lines 151-156). -/
def shutdown_trace (ws : List (Option ℚ)) : List ShutdownEvent :=
  worker_outcomes 0 ws ++ [ShutdownEvent.printedStopped]

/-! ### Workload generator (`do_intensive_work`, src lines 23-48) -/

/-- The bytes of the fixed literal `b"stress_test_data_"` (src line 32). -/
def stress_data_bytes : List ℕ :=
  "stress_test_data_".toList.map Char.toNat

/-- `for _ in range(100): data = hashlib.sha256(data).digest()` (src lines
33-34), with SHA-256 abstracted as a function on byte lists. -/
def sha256_chain (sha256 : List ℕ → List ℕ) : ℕ → List ℕ → List ℕ
  | 0, data => data
  | k + 1, data => sha256_chain sha256 k (sha256 data)

/-- One step of `n = (n * 1103515245 + 12345) & 0x7FFFFFFF` (src line 46);
masking with `0x7FFFFFFF = 2^31 - 1` is reduction modulo `2^31`. -/
def lcg_step (n : ℕ) : ℕ :=
  (n * 1103515245 + 12345) % 2 ^ 31

/-- `for _ in range(10)` applications of `lcg_step` (src lines 45-46). -/
def lcg_iter : ℕ → ℕ → ℕ
  | 0, n => n
  | k + 1, n => lcg_iter k (lcg_step n)

/-- The transcendental primitives of Python's `math` module used by the
floating-point loop, abstracted as arbitrary real-valued (here
rational-valued) functions. -/
structure MathPrims where
  sin : ℚ → ℚ
  cos : ℚ → ℚ
  tan : ℚ → ℚ
  sqrt : ℚ → ℚ
  exp : ℚ → ℚ
  log : ℚ → ℚ

/-- Python's `%` on floats: `x % y = x - y * floor(x / y)`. -/
def pymod (x y : ℚ) : ℚ := x - y * ⌊x / y⌋

/-- The floating-point accumulation loop (src lines 37-41):
`for i in range(1, 50): x = float(i) * 0.01;
result += sin(x) * cos(x) * sqrt(abs(tan(x) + 1));
result += exp(x % 10) / (log(x + 1) + 1)`. -/
def fp_loop (P : MathPrims) : ℚ :=
  (List.range' 1 49).foldl
    (fun result i =>
      let x : ℚ := (i : ℚ) * (1 / 100)
      let r := result + P.sin x * P.cos x * P.sqrt |P.tan x + 1|
      r + P.exp (pymod x 10) / (P.log (x + 1) + 1))
    0

/-- `do_intensive_work` (src lines 23-48): hash chain over a seeded buffer
(whose result is not used further), the floating-point loop, the integer LCG
loop, and `return result + n`.  `seedRandom` stands for the 64 random bytes
of src line 32. -/
def do_intensive_work (sha256 : List ℕ → List ℕ) (P : MathPrims)
    (seedRandom : List ℕ) : ℚ :=
  let data := stress_data_bytes ++ seedRandom
  let _hashed := sha256_chain sha256 100 data
  let result := fp_loop P
  let n := lcg_iter 10 104729
  result + (n : ℚ)

end CpuLoad

namespace CpuLoad

/-! ### Theorems for claims C1, C4, C5, C9, C10 -/

/-- C1: for every percentage `p` with `0 ≤ p ≤ 100`, the worker's split
`busy_time = cycle_window * (p / 100)` and `idle_time = cycle_window - busy_time`
satisfies `busy_time + idle_time = cycle_window` exactly, where the cycle
window is the fixed constant 0.1 seconds. -/
theorem busy_plus_sleep_eq_cycle (p : ℚ) (h0 : 0 ≤ p) (h1 : p ≤ 100) :
    busy_time p + sleep_time p = cycle_time ∧ cycle_time = 1 / 10 := by
  refine ⟨?_, rfl⟩
  unfold sleep_time
  ring

/-- Witness for C1 at the concrete percentage `p = 37`. -/
theorem busy_plus_sleep_eq_cycle_witness :
    busy_time 37 + sleep_time 37 = cycle_time ∧ cycle_time = 1 / 10 :=
  busy_plus_sleep_eq_cycle 37 (by norm_num) (by norm_num)

/-- Any clock reading taken after the deadline was recorded is at least the
reading the deadline was computed from. -/
theorem busyIterations_eq_zero_of_zero_budget (clock : ℕ → ℚ)
    (hmono : ∀ k, clock 0 ≤ clock k) :
    ∀ fuel k, busyIterations clock (clock 0 + busy_time 0) fuel k = 0 := by
  intro fuel
  induction fuel with
  | zero => intro k; rfl
  | succ n _ =>
    intro k
    have hb : busy_time 0 = 0 := by unfold busy_time; ring
    have : ¬ clock k < clock 0 + busy_time 0 := by
      rw [hb, add_zero]
      exact not_lt.mpr (hmono k)
    simp [busyIterations, this]

/-- C4: for target percentage exactly 0, the worker's `sleep_time` equals the
full 0.1 s cycle window, and — for any monotone clock and any number of loop
tests — the busy-spin loop performs zero invocations of `do_intensive_work`. -/
theorem zero_percent_never_works (clock : ℕ → ℚ)
    (hmono : ∀ k, clock 0 ≤ clock k) (fuel k : ℕ) :
    sleep_time 0 = cycle_time ∧ sleep_time 0 = 1 / 10 ∧
      busyIterations clock (clock 0 + busy_time 0) fuel k = 0 := by
  refine ⟨?_, ?_, busyIterations_eq_zero_of_zero_budget clock hmono fuel k⟩
  · unfold sleep_time busy_time; ring
  · unfold sleep_time busy_time cycle_time; norm_num

/-- Witness for C4 with the concrete clock `k ↦ k`, 5 loop tests, starting
at reading index 1. -/
theorem zero_percent_never_works_witness :
    sleep_time 0 = cycle_time ∧ sleep_time 0 = 1 / 10 ∧
      busyIterations (fun k => (k : ℚ)) ((fun k => (k : ℚ)) 0 + busy_time 0) 5 1 = 0 :=
  zero_percent_never_works (fun k => (k : ℚ))
    (fun k => by show ((0 : ℕ) : ℚ) ≤ (k : ℚ); exact_mod_cast Nat.zero_le k) 5 1

/-- C5: for target percentage exactly 100, `sleep_time ≤ 0` and the sleep
phase's guard `sleep_time > 0` fails, so the worker never executes a sleep
call in any cycle. -/
theorem full_load_never_sleeps :
    sleep_time 100 ≤ 0 ∧ sleep_executed 100 = false := by
  have h : sleep_time 100 = 0 := by
    unfold sleep_time busy_time cycle_time; norm_num
  refine ⟨le_of_eq h, ?_⟩
  simp [sleep_executed, h]

/-- C9: a `--duration` of exactly 0 is treated like an omitted duration:
the summary line is "Until Ctrl+C" and the coordinator takes the
indefinite polling branch, in both cases identically to `duration = None`. -/
theorem zero_duration_is_indefinite :
    duration_summary (some 0) = SummaryLine.untilInterrupt ∧
      wait_branch (some 0) = WaitBranch.indefinitePolling ∧
      duration_summary (some 0) = duration_summary none ∧
      wait_branch (some 0) = wait_branch none := by
  refine ⟨?_, ?_, ?_, ?_⟩ <;> rfl

/-- C10: the code's hoisted computation of the busy/sleep split (computed once
before the cycle loop and reused every cycle) is extensionally equal to the
spec's per-cycle recomputation, for every percentage and number of cycles. -/
theorem hoisted_split_equals_per_cycle (p : ℚ) (n : ℕ) :
    worker_cycle_splits_code p n = worker_cycle_splits_spec p n := by
  unfold worker_cycle_splits_code worker_cycle_splits_spec
  induction n with
  | zero => rfl
  | succ m ih =>
    rw [List.replicate_succ', List.range_succ, List.map_append, ih]
    rfl

/-! ### Theorems for claims C2, C3, C6, C7, C8 -/

/-- C2 counterexample: with 8 available processing units, an explicit
`--cores -4` is truthy in Python, so `num_cores` stays `-4` (it is not
defaulted to the cpu count) and `range(-4)` launches zero workers — the
claim's "non-positive defaults to all available cores" fails for negative
values. -/
theorem negative_cores_not_defaulted :
    resolve_num_cores (some (-4)) 8 = -4 ∧
      resolve_num_cores (some (-4)) 8 ≠ 8 ∧
      launched_workers (some (-4)) 8 = 0 ∧
      launched_workers (some (-4)) 8 ≠ 8 := by
  refine ⟨rfl, by decide, rfl, by decide⟩

/-- C2 amended: an omitted or zero `--cores` resolves to the cpu count; an
explicit positive `c` resolves to `c` and launches exactly `c` workers; an
explicit negative `d` is kept as-is (truthy) and launches zero workers. -/
theorem cores_resolution (cpu_count c d : ℤ) (hc : 0 < c) (hd : d < 0) :
    resolve_num_cores none cpu_count = cpu_count ∧
      resolve_num_cores (some 0) cpu_count = cpu_count ∧
      launched_workers none cpu_count = cpu_count.toNat ∧
      resolve_num_cores (some c) cpu_count = c ∧
      launched_workers (some c) cpu_count = c.toNat ∧
      resolve_num_cores (some d) cpu_count = d ∧
      launched_workers (some d) cpu_count = 0 := by
  have hcne : c ≠ 0 := ne_of_gt hc
  have hdne : d ≠ 0 := ne_of_lt hd
  refine ⟨rfl, rfl, rfl, ?_, ?_, ?_, ?_⟩
  · simp [resolve_num_cores, hcne]
  · simp [launched_workers, resolve_num_cores, hcne]
  · simp [resolve_num_cores, hdne]
  · simp [launched_workers, resolve_num_cores, hdne]
    exact le_of_lt hd

/-- Witness for the amended C2 at `cpu_count = 8`, `c = 3`, `d = -4`. -/
theorem cores_resolution_witness :
    resolve_num_cores none 8 = 8 ∧
      resolve_num_cores (some 0) 8 = 8 ∧
      launched_workers none 8 = (8 : ℤ).toNat ∧
      resolve_num_cores (some 3) 8 = 3 ∧
      launched_workers (some 3) 8 = (3 : ℤ).toNat ∧
      resolve_num_cores (some (-4)) 8 = -4 ∧
      launched_workers (some (-4)) 8 = 0 :=
  cores_resolution 8 3 (-4) (by decide) (by decide)

/-- C3: for every percentage `p` outside `[0, 100]`, `main` reports the
configuration error on standard error and exits with status 1 with zero
workers launched, whatever the `--cores` value and cpu count. -/
theorem out_of_range_percentage_is_fatal (p : ℚ) (cores : Option ℤ)
    (cpu_count : ℤ) (h : p < 0 ∨ 100 < p) :
    validate_and_launch p cores cpu_count =
      MainOutcome.configError 1 "Error: Percentage must be between 0 and 100" 0 := by
  have hno : ¬ (0 ≤ p ∧ p ≤ 100) := by
    rcases h with h | h
    · exact fun hc => absurd hc.1 (not_le.mpr h)
    · exact fun hc => absurd hc.2 (not_le.mpr h)
  rw [validate_and_launch, if_neg hno]

/-- Witness for C3 at `p = 150`. -/
theorem out_of_range_percentage_is_fatal_witness :
    validate_and_launch 150 none 8 =
      MainOutcome.configError 1 "Error: Percentage must be between 0 and 100" 0 :=
  out_of_range_percentage_is_fatal 150 none 8 (Or.inr (by norm_num))

/-- C6: the shared stop flag is monotonic — every single operation preserves
a set flag, the flag stays set along every interleaving of operations by the
handler, the coordinator and the workers, and repeating any operation (such
as a second interrupt) has no additional effect. -/
theorem stop_flag_monotonic :
    (∀ op : StopOp, applyStopOp op true = true) ∧
      (∀ ops : List StopOp, runStopOps ops true = true) ∧
      (∀ (op : StopOp) (b : Bool), applyStopOp op (applyStopOp op b) = applyStopOp op b) := by
  have h1 : ∀ op : StopOp, applyStopOp op true = true := by
    intro op; cases op <;> rfl
  refine ⟨h1, ?_, ?_⟩
  · intro ops
    induction ops with
    | nil => rfl
    | cons op rest ih =>
      show runStopOps rest (applyStopOp op true) = true
      rw [h1 op]; exact ih
  · intro op b; cases op <;> cases b <;> rfl

/-- Each worker's shutdown handling yields either a join or a forced
termination for that worker's index. -/
theorem handle_worker_cases (w : Option ℚ) (i : ℕ) :
    handle_worker w i = ShutdownEvent.joined i ∨
      handle_worker w i = ShutdownEvent.terminated i := by
  cases w with
  | none => exact Or.inr rfl
  | some t =>
    by_cases h : t ≤ grace_period
    · exact Or.inl (by simp [handle_worker, h])
    · exact Or.inr (by simp [handle_worker, h])

/-- Every worker index below the worker count gets a join or terminate event
in the outcome list, whatever the starting index. -/
theorem mem_worker_outcomes (ws : List (Option ℚ)) :
    ∀ (base i : ℕ), i < ws.length →
      ShutdownEvent.joined (base + i) ∈ worker_outcomes base ws ∨
        ShutdownEvent.terminated (base + i) ∈ worker_outcomes base ws := by
  induction ws with
  | nil => intro base i h; simp at h
  | cons w rest ih =>
    intro base i h
    cases i with
    | zero =>
      rcases handle_worker_cases w base with hc | hc
      · left; rw [Nat.add_zero, worker_outcomes, ← hc]; exact List.mem_cons_self _ _
      · right; rw [Nat.add_zero, worker_outcomes, ← hc]; exact List.mem_cons_self _ _
    | succ j =>
      have hj : j < rest.length := Nat.lt_of_succ_lt_succ (by simpa using h)
      have hbase : base + (j + 1) = base + 1 + j := by omega
      rcases ih (base + 1) j hj with hc | hc
      · left; rw [hbase, worker_outcomes]; exact List.mem_cons_of_mem _ hc
      · right; rw [hbase, worker_outcomes]; exact List.mem_cons_of_mem _ hc

/-- C7: after a stop request, every launched worker is either joined (having
exited within the 2-second grace period) or forcibly terminated, and the
final "stopped" message is the last event of the shutdown trace, after all
per-worker handling. -/
theorem every_worker_joined_or_terminated (ws : List (Option ℚ)) (i : ℕ)
    (h : i < ws.length) :
    (ShutdownEvent.joined i ∈ shutdown_trace ws ∨
        ShutdownEvent.terminated i ∈ shutdown_trace ws) ∧
      (shutdown_trace ws).getLast? = some ShutdownEvent.printedStopped := by
  constructor
  · rcases mem_worker_outcomes ws 0 i h with hc | hc
    · exact Or.inl (List.mem_append_left _ (by simpa using hc))
    · exact Or.inr (List.mem_append_left _ (by simpa using hc))
  · rw [shutdown_trace, List.getLast?_concat]

/-- Witness for C7: three workers — one exiting after 1 s (joined), one after
5 s (terminated), one never (terminated) — checked at worker index 1. -/
theorem every_worker_joined_or_terminated_witness :
    (ShutdownEvent.joined 1 ∈ shutdown_trace [some 1, some 5, none] ∨
        ShutdownEvent.terminated 1 ∈ shutdown_trace [some 1, some 5, none]) ∧
      (shutdown_trace [some 1, some 5, none]).getLast? =
        some ShutdownEvent.printedStopped :=
  every_worker_joined_or_terminated [some 1, some 5, none] 1 (by decide)

/-- C8: `do_intensive_work` is a total function (never fails) whose return
value is exactly the floating-point accumulator plus the final
linear-congruential integer, for every abstract hash, every interpretation of
the math primitives and every random seed; the final LCG integer from seed
104729 is concretely 1302893495. -/
theorem intensive_work_returns_fp_plus_lcg (sha256 : List ℕ → List ℕ)
    (P : MathPrims) (seedRandom : List ℕ) :
    do_intensive_work sha256 P seedRandom = fp_loop P + (lcg_iter 10 104729 : ℚ) ∧
      lcg_iter 10 104729 = 1302893495 :=
  ⟨rfl, by decide⟩

end CpuLoad
